import Mathlib

/-!
Verification of the 2D linear-transformation lesson components: the
Transform2D engine (matrix shift, determinant, classification), the
interaction controllers (slider updates, presets, transform animation,
eigenvector-angle matching) and the arrow renderers, shallow-embedded
from the repository's React components.  JavaScript numbers are modelled
as rationals where the code uses only field arithmetic and comparisons,
and as reals where the code uses `Math.PI`, `Math.sqrt` or trigonometry.
-/

namespace EigenLesson

/-- A 2×2 matrix `[[a,b],[c,d]]`, as the record used across the components. -/
structure Matrix2 where
  a : ℚ
  b : ℚ
  c : ℚ
  d : ℚ
deriving DecidableEq, Repr

/-- The four field keys of `Matrix2` (`"a" | "b" | "c" | "d"` in the source). -/
inductive MatrixKey
  | a
  | b
  | c
  | d
deriving DecidableEq, Repr

/-- Field lookup on a `Matrix2` by key. -/
def getEntry (m : Matrix2) : MatrixKey → ℚ
  | .a => m.a
  | .b => m.b
  | .c => m.c
  | .d => m.d

/-- Source: `handleMatrixChange` (part_000 line 316, part_002 line 181):
`setMatrix((prev) => ({ ...prev, [key]: value }))` — replace the one keyed
field of the previous matrix. -/
def handleMatrixChange (m : Matrix2) (key : MatrixKey) (value : ℚ) : Matrix2 :=
  match key with
  | .a => { m with a := value }
  | .b => { m with b := value }
  | .c => { m with c := value }
  | .d => { m with d := value }

/-- The identity matrix `{a:1, b:0, c:0, d:1}`. -/
def identityMatrix : Matrix2 := ⟨1, 0, 0, 1⟩

/-- Scalar multiple of a matrix, entrywise. -/
def smulMatrix (r : ℚ) (m : Matrix2) : Matrix2 := ⟨r * m.a, r * m.b, r * m.c, r * m.d⟩

/-- Entrywise matrix subtraction. -/
def subMatrix (m n : Matrix2) : Matrix2 := ⟨m.a - n.a, m.b - n.b, m.c - n.c, m.d - n.d⟩

/-- Source: `matrixAminusLambdaI` (GeometricEigenvalues.tsx lines 26–31): the shifted
matrix `{a: A.a - lambda, b: A.b, c: A.c, d: A.d - lambda}`. -/
def matrixAminusLambdaI (matrixA : Matrix2) (lambda : ℚ) : Matrix2 :=
  ⟨matrixA.a - lambda, matrixA.b, matrixA.c, matrixA.d - lambda⟩

/-- Source: `determinant` (GeometricEigenvalues.tsx lines 33–35): `a*d - b*c`. -/
def determinant (m : Matrix2) : ℚ := m.a * m.d - m.b * m.c

/-- The fixed demonstration matrix `A = [[3,1],[0,2]]` of `DeterminantExplorer`. -/
def matrixA : Matrix2 := ⟨3, 1, 0, 2⟩

/-- Source: `isAtEigenvalue` (GeometricEigenvalues.tsx line 38): `|determinant| < 0.15`. -/
def isAtEigenvalue (det : ℚ) : Bool := decide (|det| < 15/100)

/-- The eigenvalue table `[2, 3]` of `DeterminantExplorer`. -/
def eigenvaluesList : List ℚ := [2, 3]

/-- Source: `nearestEigenvalue` (GeometricEigenvalues.tsx line 40):
`eigenvalues.find((ev) => Math.abs(lambda - ev) < 0.15)`. -/
def nearestEigenvalue (lambda : ℚ) : Option ℚ :=
  eigenvaluesList.find? (fun ev => decide (|lambda - ev| < 15/100))

/-- The advisory strings the matrix scenes print under the determinant readout. -/
inductive Advisory
  | flipped
  | squished
deriving DecidableEq, Repr

/-- The advisory text emitted by `MatrixTransformationExplorer` (part_000 lines
169–181) and `MatrixViz` (part_002 lines 151–162):
`if (det < 0) { "Orientation flipped!" } else if (Math.abs(det) < 0.1)
{ "Space is being squished!" }`. -/
def advisoriesFor (det : ℚ) : List Advisory :=
  if det < 0 then [Advisory.flipped]
  else if |det| < 1/10 then [Advisory.squished]
  else []

/-- The preset table shared by `MatrixControls` (part_000) and
`TransformationExplorerFull` (part_002). -/
def presets : List (String × Matrix2) :=
  [("Identity", ⟨1, 0, 0, 1⟩),
   ("Scale 2x", ⟨2, 0, 0, 2⟩),
   ("Rotate 45", ⟨71/100, -71/100, 71/100, 71/100⟩),
   ("Shear", ⟨1, 1, 0, 1⟩),
   ("Reflection", ⟨-1, 0, 0, 1⟩)]

/-- The preset click handler of `MatrixControls` (part_000 lines 290–304): four
sequential single-field `onMatrixChange` calls, each a functional update. -/
def applyPresetClick (m : Matrix2) (values : Matrix2) : Matrix2 :=
  handleMatrixChange
    (handleMatrixChange
      (handleMatrixChange
        (handleMatrixChange m .a values.a) .b values.b) .c values.c) .d values.d

/-- The atomic preset handler of `TransformationExplorerFull` (part_002 lines
243–252): `setMatrix(preset.values)`. -/
def applyPresetAtomic (_m : Matrix2) (values : Matrix2) : Matrix2 := values

/-- Claim C1 counterexample: at `A = {3,1,0,2}`, `λ = 2`, the shifted matrix is
`{1,1,0,0}` — entry `c` is unchanged and `d` is shifted — not the claimed
`{a-λ, b, c-λ, d} = {1,1,-2,2}`. -/
theorem matrixAminusLambdaI_not_first_column :
    matrixAminusLambdaI ⟨3, 1, 0, 2⟩ 2 ≠ ⟨3 - 2, 1, 0 - 2, 2⟩ ∧
    matrixAminusLambdaI ⟨3, 1, 0, 2⟩ 2 = ⟨1, 1, 0, 0⟩ := by
  constructor
  · norm_num [matrixAminusLambdaI, Matrix2.mk.injEq]
  · norm_num [matrixAminusLambdaI, Matrix2.mk.injEq]

/-- Claim C1 (amended): `matrixAminusLambdaI` returns `{a-λ, b, c, d-λ}` — it
shifts exactly the diagonal entries `a` and `d` by `λ`, leaves `b` and `c`
unchanged, and the result equals `M - λI`. -/
theorem matrixAminusLambdaI_shifts_diagonal (matrixM : Matrix2) (lambda : ℚ) :
    matrixAminusLambdaI matrixM lambda =
      ⟨matrixM.a - lambda, matrixM.b, matrixM.c, matrixM.d - lambda⟩ ∧
    (matrixAminusLambdaI matrixM lambda).b = matrixM.b ∧
    (matrixAminusLambdaI matrixM lambda).c = matrixM.c ∧
    matrixAminusLambdaI matrixM lambda =
      subMatrix matrixM (smulMatrix lambda identityMatrix) := by
  refine ⟨rfl, rfl, rfl, ?_⟩
  simp only [matrixAminusLambdaI, subMatrix, smulMatrix, identityMatrix,
    Matrix2.mk.injEq]
  refine ⟨by ring, by ring, by ring, by ring⟩

/-- Claim C2 counterexample: at `det = -1/20` both `det < 0` and `|det| < 0.1`
hold, yet only the orientation-flipped advisory is rendered — the squished
advisory is suppressed by the `else if`. -/
theorem advisoriesFor_not_independent :
    ((-1 : ℚ)/20) < 0 ∧ |((-1 : ℚ)/20)| < 1/10 ∧
    Advisory.squished ∉ advisoriesFor ((-1)/20) := by
  refine ⟨by norm_num, ?_, ?_⟩
  · rw [abs_of_neg (by norm_num : ((-1 : ℚ)/20) < 0)]
    norm_num
  · norm_num [advisoriesFor]
    simp

/-- Claim C2 (amended): the flipped advisory is rendered iff `det < 0`, the
squished advisory iff `det ≥ 0` and `|det| < 0.1` (the flip branch takes
precedence), and the two advisories never appear together. -/
theorem advisoriesFor_characterization (det : ℚ) :
    (Advisory.flipped ∈ advisoriesFor det ↔ det < 0) ∧
    (Advisory.squished ∈ advisoriesFor det ↔ 0 ≤ det ∧ |det| < 1/10) ∧
    ¬(Advisory.flipped ∈ advisoriesFor det ∧ Advisory.squished ∈ advisoriesFor det) := by
  unfold advisoriesFor
  split_ifs with h1 h2 <;> simp_all [not_lt]

/-- Claim C6: for `A = {3,1,0,2}` and `λ = 2` the shifted matrix is `{1,1,0,0}`
with determinant `0`, the near-singular flag is set and the eigenvalue-found
indication names `λ = 2`; at `λ = 2.5` the determinant is `-0.25 ≠ 0`. -/
theorem determinantExplorer_at_eigenvalues :
    matrixAminusLambdaI matrixA 2 = ⟨1, 1, 0, 0⟩ ∧
    determinant (matrixAminusLambdaI matrixA 2) = 0 ∧
    isAtEigenvalue (determinant (matrixAminusLambdaI matrixA 2)) = true ∧
    nearestEigenvalue 2 = some 2 ∧
    determinant (matrixAminusLambdaI matrixA (5/2)) = -1/4 ∧
    determinant (matrixAminusLambdaI matrixA (5/2)) ≠ 0 := by
  refine ⟨?_, ?_, ?_, ?_, ?_, ?_⟩ <;>
    norm_num [matrixAminusLambdaI, matrixA, determinant, isAtEigenvalue,
      nearestEigenvalue, eigenvaluesList, List.find?, Matrix2.mk.injEq]

/-- Claim C7: applying a preset by four sequential single-field updates yields
exactly the preset's four values, for every starting matrix, and agrees with
the variant that atomically replaces the whole matrix. -/
theorem applyPresetClick_eq_atomic (m values : Matrix2) :
    applyPresetClick m values = values ∧
    applyPresetClick m values = applyPresetAtomic m values := by
  cases values
  exact ⟨rfl, rfl⟩

/-- Claim C9: `handleMatrixChange key value` sets field `key` to `value` and
leaves every other field unchanged, with no re-normalization. -/
theorem handleMatrixChange_updates_one_field (m : Matrix2) (key : MatrixKey)
    (value : ℚ) (other : MatrixKey) :
    getEntry (handleMatrixChange m key value) other =
      if other = key then value else getEntry m other := by
  cases key <;> cases other <;> rfl

/-!
The transform-animation state machine of `VectorTransformationViz`
(part_003).  `handleTransform` guards on `isAnimating`, then starts an
animation-frame chain whose closure variable `progress` is incremented by
`0.02` per tick; each tick commits either `progress` (when `< 1`, and
reschedules) or exactly `1` (when the increment reaches or passes `1`, and
stops).  `activeClocks` counts the pending animation-frame callbacks.
-/

/-- The committed React state of `VectorTransformationViz`. -/
structure VizState where
  animationProgress : ℚ
  isAnimating : Bool
  showEigenvector : Bool
  activeClocks : ℕ
deriving DecidableEq, Repr

/-- Mount-time state: progress `0`, not animating, no pending clock. -/
def initialVizState : VizState := ⟨0, false, false, 0⟩

/-- Source: `handleTransform` (part_003 lines 162–179): `if (isAnimating) return;`
then set `isAnimating`/`showEigenvector` and schedule one `animate` frame. -/
def handleTransform (s : VizState) : VizState :=
  if s.isAnimating then s
  else { s with isAnimating := true, showEigenvector := true,
                activeClocks := s.activeClocks + 1 }

/-- One in-flight animation: the closure-local `progress` variable of
`animate` together with the committed state. -/
structure AnimFrame where
  progress : ℚ
  st : VizState
deriving DecidableEq, Repr

/-- One firing of the `animate` callback (part_003 lines 167–176):
`progress += 0.02`; if `progress >= 1` commit exactly `1`, clear
`isAnimating` and do not reschedule; otherwise commit `progress` and
reschedule. -/
def animateStep (f : AnimFrame) : AnimFrame :=
  if 1 ≤ f.progress + 2/100 then
    ⟨f.progress + 2/100,
     { f.st with animationProgress := 1, isAnimating := false,
                 activeClocks := f.st.activeClocks - 1 }⟩
  else
    ⟨f.progress + 2/100, { f.st with animationProgress := f.progress + 2/100 }⟩

/-- The run started by pressing Transform in the idle state: local progress
`0`, then `n` firings of `animate`. -/
def animateRun : ℕ → AnimFrame
  | 0 => ⟨0, handleTransform initialVizState⟩
  | n + 1 => animateStep (animateRun n)

theorem animateRun_invariant (n : ℕ) :
    0 ≤ (animateRun n).progress ∧
    0 ≤ (animateRun n).st.animationProgress ∧
    (animateRun n).st.animationProgress ≤ 1 := by
  induction n with
  | zero =>
    refine ⟨le_refl 0, le_refl 0, ?_⟩
    norm_num [animateRun, handleTransform, initialVizState]
  | succ n ih =>
    obtain ⟨hp, hc0, hc1⟩ := ih
    have hrun : animateRun (n + 1) = animateStep (animateRun n) := rfl
    rw [hrun]
    simp only [animateStep]
    split_ifs with h
    · exact ⟨show (0 : ℚ) ≤ (animateRun n).progress + 2/100 by linarith,
             show (0 : ℚ) ≤ 1 by norm_num,
             show (1 : ℚ) ≤ 1 by norm_num⟩
    · push_neg at h
      exact ⟨show (0 : ℚ) ≤ (animateRun n).progress + 2/100 by linarith,
             show (0 : ℚ) ≤ (animateRun n).progress + 2/100 by linarith,
             show (animateRun n).progress + 2/100 ≤ 1 by linarith⟩

/-- Claim C4: every committed animation-progress value of the run lies in
`[0,1]` (the per-frame commit is `1` exactly when the increment reaches or
passes `1`), and a Transform request during `Animating` is a no-op — it
leaves the state, including the count of active clocks, unchanged. -/
theorem handleTransform_progress_bounded :
    (∀ s : VizState, s.isAnimating = true → handleTransform s = s) ∧
    (∀ n : ℕ, 0 ≤ (animateRun n).st.animationProgress ∧
      (animateRun n).st.animationProgress ≤ 1) := by
  constructor
  · intro s hs
    unfold handleTransform
    rw [hs]
    simp
  · intro n
    exact ⟨(animateRun_invariant n).2.1, (animateRun_invariant n).2.2⟩

/-- Claim C4 witness: a second Transform during the animating state
`⟨1/2, true, true, 1⟩` changes nothing, and the committed progress after 60
ticks (past the clamp) is still within `[0,1]`. -/
theorem handleTransform_progress_bounded_witness :
    handleTransform ⟨1/2, true, true, 1⟩ = ⟨1/2, true, true, 1⟩ ∧
    (0 ≤ (animateRun 60).st.animationProgress ∧
      (animateRun 60).st.animationProgress ≤ 1) :=
  ⟨handleTransform_progress_bounded.1 ⟨1/2, true, true, 1⟩ rfl,
   handleTransform_progress_bounded.2 60⟩

/-!
Teardown behaviour of the repeating animation callbacks.  `CoupledOscillators`
and `StabilityAnalysis` (part_001) keep the pending `requestAnimationFrame`
id in `animationRef` and their effect cleanup cancels it on unmount.  The
`animate` chain started by `handleTransform` (part_003) has no cleanup and no
mounted check: a callback pending at unmount still fires and commits state.
-/

/-- World state for `VectorTransformationViz`'s animation chain: whether the
view is mounted, whether an `animate` callback is pending, the closure
`progress`, the committed state, and a count of commits made after unmount. -/
structure RafWorld where
  mounted : Bool
  pending : Bool
  progress : ℚ
  animationProgress : ℚ
  isAnimating : Bool
  commitsWhileUnmounted : ℕ
deriving DecidableEq, Repr

/-- The world just after mounting `VectorTransformationViz`. -/
def vizMountedWorld : RafWorld := ⟨true, false, 0, 0, false, 0⟩

/-- Pressing Transform (part_003 lines 162–179): guard on `isAnimating`,
reset the closure progress and schedule the first `animate` frame. -/
def vizStartAnim (w : RafWorld) : RafWorld :=
  if w.isAnimating then w
  else { w with isAnimating := true, pending := true, progress := 0 }

/-- Unmounting `VectorTransformationViz`: its only effect (the draw effect)
returns no cleanup, and `handleTransform` never cancels the scheduled
`animate` frame, so the pending callback survives. -/
def vizUnmount (w : RafWorld) : RafWorld := { w with mounted := false }

/-- The pending `animate` callback fires (part_003 lines 167–176).  The body
commits state unconditionally — it contains no mounted/active check. -/
def vizFrameFire (w : RafWorld) : RafWorld :=
  if w.pending then
    if 1 ≤ w.progress + 2/100 then
      { w with progress := w.progress + 2/100, animationProgress := 1,
               isAnimating := false, pending := false,
               commitsWhileUnmounted :=
                 w.commitsWhileUnmounted + (if w.mounted then 0 else 1) }
    else
      { w with progress := w.progress + 2/100,
               animationProgress := w.progress + 2/100,
               commitsWhileUnmounted :=
                 w.commitsWhileUnmounted + (if w.mounted then 0 else 1) }
  else w

/-- World state for the part_001 animations (`CoupledOscillators`,
`StabilityAnalysis`): mounted flag, pending `requestAnimationFrame` callback
held in `animationRef`, and the committed time. -/
structure OscWorld where
  mounted : Bool
  pending : Bool
  time : ℚ
deriving DecidableEq, Repr

/-- Unmounting a part_001 animation: the effect cleanup runs
`cancelAnimationFrame(animationRef.current)`, unregistering the pending
callback. -/
def oscUnmount (w : OscWorld) : OscWorld := { w with mounted := false, pending := false }

/-- Claim C8 (bug evaluation): part_001's cleanup leaves no pending callback
after unmount, but in `VectorTransformationViz` the `animate` callback pending
at unmount survives (`pending = true`) and, when the next frame fires, commits
state (`animationProgress := 0.02`) on the unmounted view. -/
theorem vizFrameFire_commits_after_unmount :
    (∀ w : OscWorld, (oscUnmount w).pending = false) ∧
    (vizUnmount (vizStartAnim vizMountedWorld)).pending = true ∧
    (vizFrameFire (vizUnmount (vizStartAnim vizMountedWorld))).commitsWhileUnmounted = 1 ∧
    (vizFrameFire (vizUnmount (vizStartAnim vizMountedWorld))).animationProgress = 2/100 := by
  refine ⟨fun w => rfl, rfl, ?_, ?_⟩ <;>
    norm_num [vizFrameFire, vizUnmount, vizStartAnim, vizMountedWorld]

/-!
The arrow renderers.  Each scene defines a local `drawArrow` helper that
emits a line segment and a filled triangular head; the explorer scenes skip
very short arrows, the part_003 scenes do not.  A draw call records the
geometry handed to the canvas context.
-/

/-- Source: `Math.atan2(y, x)`, as the argument of the complex number `x + iy`. -/
noncomputable def atan2 (y x : ℝ) : ℝ := Complex.arg ⟨x, y⟩

/-- One canvas draw call of a `drawArrow` helper: the stroked shaft segment,
or the filled triangular head through its three vertices. -/
inductive ArrowCall
  | segment (fromX fromY toX toY : ℝ)
  | head (x1 y1 x2 y2 x3 y3 : ℝ)

/-- The triangular head path: apex at the tip, base points stepped back
`headLength` pixels at `±30°` from the shaft's angle. -/
noncomputable def drawArrowHead (toX toY headLength angle : ℝ) : ArrowCall :=
  ArrowCall.head toX toY
    (toX - headLength * Real.cos (angle - Real.pi / 6))
    (toY - headLength * Real.sin (angle - Real.pi / 6))
    (toX - headLength * Real.cos (angle + Real.pi / 6))
    (toY - headLength * Real.sin (angle + Real.pi / 6))

/-- Source: `drawArrow` of `MatrixTransformationExplorer` (part_000 lines 97–133):
head length 8, and `if (length < 5) return;` before any drawing. -/
noncomputable def drawArrowExplorer (fromX fromY toX toY : ℝ) : List ArrowCall :=
  if Real.sqrt ((toX - fromX) * (toX - fromX) + (toY - fromY) * (toY - fromY)) < 5 then []
  else [ArrowCall.segment fromX fromY toX toY,
        drawArrowHead toX toY 8 (atan2 (toY - fromY) (toX - fromX))]

/-- Source: `drawArrow` of `MatrixViz` (part_002 lines 73–110): head length 8,
`if (length < 5) return;`. -/
noncomputable def drawArrowMatrixViz (fromX fromY toX toY : ℝ) : List ArrowCall :=
  if Real.sqrt ((toX - fromX) * (toX - fromX) + (toY - fromY) * (toY - fromY)) < 5 then []
  else [ArrowCall.segment fromX fromY toX toY,
        drawArrowHead toX toY 8 (atan2 (toY - fromY) (toX - fromX))]

/-- Source: `drawArrow` of `DeterminantExplorer` (GeometricEigenvalues.tsx lines
131–168): head length 8, `if (length < 3) return;`. -/
noncomputable def drawArrowDeterminant (fromX fromY toX toY : ℝ) : List ArrowCall :=
  if Real.sqrt ((toX - fromX) * (toX - fromX) + (toY - fromY) * (toY - fromY)) < 3 then []
  else [ArrowCall.segment fromX fromY toX toY,
        drawArrowHead toX toY 8 (atan2 (toY - fromY) (toX - fromX))]

/-- Source: `drawArrow` of `VectorTransformationViz` (part_003 lines 78–112): head
length 10 and no minimum-length guard — it always draws shaft and head. -/
noncomputable def drawArrowVectorViz (fromX fromY toX toY : ℝ) : List ArrowCall :=
  [ArrowCall.segment fromX fromY toX toY,
   drawArrowHead toX toY 10 (atan2 (toY - fromY) (toX - fromX))]

/-- Source: `drawArrow` of `EigenvectorFinder` (part_003, second component): head
length 10 and no minimum-length guard. -/
noncomputable def drawArrowFinder (fromX fromY toX toY : ℝ) : List ArrowCall :=
  [ArrowCall.segment fromX fromY toX toY,
   drawArrowHead toX toY 10 (atan2 (toY - fromY) (toX - fromX))]

/-- Recognizer for head-path draw calls, for the stub recording surface. -/
def isHead : ArrowCall → Bool
  | ArrowCall.head _ _ _ _ _ _ => true
  | ArrowCall.segment _ _ _ _ => false

/-- Number of head-path draw calls a renderer emitted. -/
def headCallCount (calls : List ArrowCall) : ℕ := (calls.filter isHead).length

/-- Claim C5 counterexample: the part_003 renderers draw a head even for a
requested arrow of pixel length `0` (tip = tail), below any 3–5 px
threshold — one head-path call is emitted, not zero. -/
theorem drawArrowVectorViz_short_arrow_head :
    headCallCount (drawArrowVectorViz 0 0 0 0) = 1 ∧
    headCallCount (drawArrowFinder 0 0 0 0) = 1 := ⟨rfl, rfl⟩

/-- Claim C5 (amended): the arrow helpers of `MatrixTransformationExplorer`,
`MatrixViz` (threshold 5 px) and `DeterminantExplorer` (threshold 3 px)
suppress below-threshold arrows entirely — no segment and no head; the two
part_003 helpers (`VectorTransformationViz`, `EigenvectorFinder`) have no
such guard and draw unconditionally. -/
theorem drawArrow_suppresses_short (fromX fromY toX toY : ℝ) :
    (Real.sqrt ((toX - fromX) * (toX - fromX) + (toY - fromY) * (toY - fromY)) < 5 →
      drawArrowExplorer fromX fromY toX toY = [] ∧
      drawArrowMatrixViz fromX fromY toX toY = []) ∧
    (Real.sqrt ((toX - fromX) * (toX - fromX) + (toY - fromY) * (toY - fromY)) < 3 →
      drawArrowDeterminant fromX fromY toX toY = []) ∧
    headCallCount (drawArrowVectorViz fromX fromY toX toY) = 1 ∧
    headCallCount (drawArrowFinder fromX fromY toX toY) = 1 := by
  refine ⟨fun h => ⟨?_, ?_⟩, fun h => ?_, rfl, rfl⟩
  · unfold drawArrowExplorer
    exact if_pos h
  · unfold drawArrowMatrixViz
    exact if_pos h
  · unfold drawArrowDeterminant
    exact if_pos h

/-- Claim C5 witness: the zero-length arrow request is suppressed by all
three guarded helpers. -/
theorem drawArrow_suppresses_short_witness :
    drawArrowExplorer 0 0 0 0 = [] ∧ drawArrowMatrixViz 0 0 0 0 = [] ∧
    drawArrowDeterminant 0 0 0 0 = [] := by
  have hz : Real.sqrt ((0 - 0) * (0 - 0) + ((0 : ℝ) - 0) * (0 - 0)) = 0 := by
    norm_num
  exact ⟨((drawArrow_suppresses_short 0 0 0 0).1 (by rw [hz]; norm_num)).1,
         ((drawArrow_suppresses_short 0 0 0 0).1 (by rw [hz]; norm_num)).2,
         (drawArrow_suppresses_short 0 0 0 0).2.1 (by rw [hz]; norm_num)⟩

/-!
Eigenvector detection by angle matching (`EigenvectorFinder`, part_003).
The loop walks the table of known eigenvector angles in order, folds the
raw angular difference into `[0, π]` by the wrap-around step, and returns
the first entry within tolerance together with its eigenvalue.
-/

/-- The wrap-around step of the loop (part_003 lines 311–313):
`if (diff > Math.PI) diff = 2 * Math.PI - diff`. -/
noncomputable def wrapDiff (diff : ℝ) : ℝ :=
  if diff > Real.pi then 2 * Real.pi - diff else diff

/-- The matching loop of `getEigenvectorMatch` (part_003 lines 308–319),
generalized over the table of `(known angle, eigenvalue)` pairs, carrying
the running index: return `{index, eigenvalue}` at the first entry whose
wrapped difference is below tolerance, else `null`. -/
noncomputable def angleMatchAux (angle tolerance : ℝ) :
    ℕ → List (ℝ × ℝ) → Option (ℕ × ℝ)
  | _, [] => none
  | i, entry :: rest =>
    if wrapDiff |angle - entry.1| < tolerance then some (i, entry.2)
    else angleMatchAux angle tolerance (i + 1) rest

/-- Source: `angleMatch angle table tolerance`: the loop started at index 0. -/
noncomputable def angleMatch (angle : ℝ) (table : List (ℝ × ℝ))
    (tolerance : ℝ) : Option (ℕ × ℝ) :=
  angleMatchAux angle tolerance 0 table

/-- The finder's fixed table: eigenvector angles `[0, 3π/4]` paired with
eigenvalues `[2, 1]` for the matrix `[[2,1],[0,1]]`. -/
noncomputable def eigenvectorTable : List (ℝ × ℝ) :=
  [(0, 2), (3 * Real.pi / 4, 1)]

/-- Source: `getEigenvectorMatch` (part_003 lines 308–319): tolerance `0.15` radians
against the fixed table. -/
noncomputable def getEigenvectorMatch (vectorAngle : ℝ) : Option (ℕ × ℝ) :=
  angleMatch vectorAngle eigenvectorTable (15/100)

/-- Modelled from the spec: the minimal circular distance
`min(|angle-known|, 2π-|angle-known|)`. -/
noncomputable def circDist (angle known : ℝ) : ℝ :=
  min |angle - known| (2 * Real.pi - |angle - known|)

/-- Modelled from the spec: return the first entry (table order) whose
minimal circular distance is below tolerance, paired with its eigenvalue. -/
noncomputable def angleMatchSpecAux (angle tolerance : ℝ) :
    ℕ → List (ℝ × ℝ) → Option (ℕ × ℝ)
  | _, [] => none
  | i, entry :: rest =>
    if circDist angle entry.1 < tolerance then some (i, entry.2)
    else angleMatchSpecAux angle tolerance (i + 1) rest

/-- Modelled from the spec: `angleMatch` as the spec words it. -/
noncomputable def angleMatchSpec (angle : ℝ) (table : List (ℝ × ℝ))
    (tolerance : ℝ) : Option (ℕ × ℝ) :=
  angleMatchSpecAux angle tolerance 0 table

theorem wrapDiff_eq_min (d : ℝ) : wrapDiff d = min d (2 * Real.pi - d) := by
  unfold wrapDiff
  split_ifs with h
  · exact (min_eq_right (by linarith)).symm
  · push_neg at h
    exact (min_eq_left (by linarith)).symm

theorem wrapDiff_abs_eq_circDist (angle known : ℝ) :
    wrapDiff |angle - known| = circDist angle known := by
  rw [wrapDiff_eq_min, circDist]

theorem angleMatchAux_eq_spec (angle tolerance : ℝ) (i : ℕ)
    (table : List (ℝ × ℝ)) :
    angleMatchAux angle tolerance i table =
      angleMatchSpecAux angle tolerance i table := by
  induction table generalizing i with
  | nil => rfl
  | cons entry rest ih =>
    simp only [angleMatchAux, angleMatchSpecAux, wrapDiff_abs_eq_circDist]
    split_ifs with h
    · rfl
    · exact ih (i + 1)

theorem circDist_pi_zero : circDist Real.pi 0 = Real.pi := by
  unfold circDist
  rw [sub_zero, abs_of_nonneg Real.pi_nonneg,
      show 2 * Real.pi - Real.pi = Real.pi by ring, min_self]

theorem circDist_pi_threeQuarters :
    circDist Real.pi (3 * Real.pi / 4) = Real.pi / 4 := by
  unfold circDist
  rw [show Real.pi - 3 * Real.pi / 4 = Real.pi / 4 by ring,
      abs_of_nonneg (by linarith [Real.pi_nonneg] : (0 : ℝ) ≤ Real.pi / 4)]
  exact min_eq_left (by linarith [Real.pi_nonneg])

/-- Claim C3: the matching loop returns exactly the first table entry whose
minimal circular distance `min(|angle-known|, 2π-|angle-known|)` is below the
tolerance, paired with its eigenvalue, and `null` when none is; with known
angle 0 and tolerance 0.15, query angle 0.1 matches, 0.2 does not, and
`2π - 0.05` matches by wrap-around. -/
theorem angleMatch_eq_spec_and_instances :
    (∀ (angle tolerance : ℝ) (table : List (ℝ × ℝ)),
      angleMatch angle table tolerance = angleMatchSpec angle table tolerance) ∧
    angleMatch (1/10) [(0, 2)] (15/100) = some (0, 2) ∧
    angleMatch (1/5) [(0, 2)] (15/100) = none ∧
    angleMatch (2 * Real.pi - 1/20) [(0, 2)] (15/100) = some (0, 2) := by
  have hpi3 := Real.pi_gt_three
  refine ⟨fun angle tolerance table =>
    angleMatchAux_eq_spec angle tolerance 0 table, ?_, ?_, ?_⟩
  · have habs : |((1 : ℝ)/10) - 0| = 1/10 := by
      rw [sub_zero]
      exact abs_of_nonneg (by norm_num)
    have hwrap : wrapDiff |((1 : ℝ)/10) - 0| = 1/10 := by
      rw [habs]
      exact if_neg (not_lt.mpr (by linarith))
    simp only [angleMatch, angleMatchAux, hwrap]
    rw [if_pos (by norm_num)]
  · have habs : |((1 : ℝ)/5) - 0| = 1/5 := by
      rw [sub_zero]
      exact abs_of_nonneg (by norm_num)
    have hwrap : wrapDiff |((1 : ℝ)/5) - 0| = 1/5 := by
      rw [habs]
      exact if_neg (not_lt.mpr (by linarith))
    simp only [angleMatch, angleMatchAux, hwrap]
    rw [if_neg (by norm_num)]
  · have habs : |(2 * Real.pi - 1/20) - 0| = 2 * Real.pi - 1/20 := by
      rw [sub_zero]
      exact abs_of_nonneg (by linarith)
    have hwrap : wrapDiff |(2 * Real.pi - 1/20) - 0| = 1/20 := by
      rw [habs]
      unfold wrapDiff
      rw [if_pos (by linarith)]
      ring
    simp only [angleMatch, angleMatchAux, hwrap]
    rw [if_pos (by norm_num)]

/-- Claim C10: matching is directional — whenever the query angle's circular
distance from both table entries is at least the tolerance (in particular at
angle `π`, exactly opposite the table entry `0` and on the same eigenvector
line), `getEigenvectorMatch` returns `null`. -/
theorem getEigenvectorMatch_direction_sensitive :
    (∀ angle : ℝ,
      15/100 ≤ circDist angle 0 →
      15/100 ≤ circDist angle (3 * Real.pi / 4) →
      getEigenvectorMatch angle = none) ∧
    getEigenvectorMatch Real.pi = none := by
  have hgen : ∀ angle : ℝ,
      15/100 ≤ circDist angle 0 →
      15/100 ≤ circDist angle (3 * Real.pi / 4) →
      getEigenvectorMatch angle = none := by
    intro angle h0 h1
    unfold getEigenvectorMatch angleMatch eigenvectorTable
    simp only [angleMatchAux, wrapDiff_abs_eq_circDist]
    rw [if_neg (not_lt.mpr h0), if_neg (not_lt.mpr h1)]
  refine ⟨hgen, hgen Real.pi ?_ ?_⟩
  · rw [circDist_pi_zero]
    linarith [Real.pi_gt_three]
  · rw [circDist_pi_threeQuarters]
    linarith [Real.pi_gt_three]

/-- Claim C10 witness: the dragged angle `π` — pointing opposite the table's
`[1,0]` representative — is not reported as an eigenvector. -/
theorem getEigenvectorMatch_direction_sensitive_witness :
    getEigenvectorMatch Real.pi = none :=
  getEigenvectorMatch_direction_sensitive.1 Real.pi
    (by rw [circDist_pi_zero]; linarith [Real.pi_gt_three])
    (by rw [circDist_pi_threeQuarters]; linarith [Real.pi_gt_three])

end EigenLesson
